import Mathlib

/-!
Shallow embedding of the notification-scheduling engine of the reminder
application (source: `src/main.py`).

Conventions used throughout:
* Wall-clock instants handled by the scheduler are modelled as `Int`
  (e.g. microseconds since an epoch); the scheduler only ever compares
  two datetimes and subtracts them, so any linearly ordered additive
  model is faithful.
* The persistence layer works with textual ISO-8601 timestamps, so there
  datetimes are modelled structurally by `PyDateTime`, together with
  executable models of Python's `datetime.isoformat` and
  `datetime.fromisoformat`.
* Python exceptions are modelled with `Except PyExn`; a `try/except`
  block of the source becomes an explicit `match` on the result of the
  guarded computation.
* The mutable state of each component becomes a structure that the
  operations thread explicitly.
-/

/-- Python `datetime.datetime`: a naive calendar timestamp with
microsecond precision. -/
structure PyDateTime where
  year : Nat
  month : Nat
  day : Nat
  hour : Nat
  minute : Nat
  second : Nat
  microsecond : Nat
deriving DecidableEq, Repr

/-- Gregorian leap-year rule (as validated by Python's `datetime`
constructor). -/
def isLeap (y : Nat) : Bool :=
  y % 4 == 0 && (y % 100 != 0 || y % 400 == 0)

/-- Number of days in a month, as validated by Python's `datetime`
constructor. -/
def daysInMonth (y m : Nat) : Nat :=
  if m = 2 then (if isLeap y then 29 else 28)
  else if m = 4 ∨ m = 6 ∨ m = 9 ∨ m = 11 then 30
  else 31

/-- The field ranges accepted by Python's `datetime` constructor
(`MINYEAR = 1`, `MAXYEAR = 9999`). -/
def validTuple (y mo da h mi se us : Nat) : Bool :=
  decide (1 ≤ y) && decide (y ≤ 9999) &&
  decide (1 ≤ mo) && decide (mo ≤ 12) &&
  decide (1 ≤ da) && decide (da ≤ daysInMonth y mo) &&
  decide (h ≤ 23) && decide (mi ≤ 59) && decide (se ≤ 59) &&
  decide (us ≤ 999999)

/-- A structurally valid Python datetime. -/
def PyDateTime.validb (d : PyDateTime) : Bool :=
  validTuple d.year d.month d.day d.hour d.minute d.second d.microsecond

/-- Two decimal digits, zero padded (`%02d`). -/
def pad2chars (n : Nat) : List Char :=
  [Nat.digitChar (n / 10), Nat.digitChar (n % 10)]

/-- Four decimal digits, zero padded (`%04d`). -/
def pad4chars (n : Nat) : List Char :=
  [Nat.digitChar (n / 1000), Nat.digitChar (n / 100 % 10),
   Nat.digitChar (n / 10 % 10), Nat.digitChar (n % 10)]

/-- Six decimal digits, zero padded (`%06d`), used for microseconds. -/
def pad6chars (n : Nat) : List Char :=
  [Nat.digitChar (n / 100000), Nat.digitChar (n / 10000 % 10),
   Nat.digitChar (n / 1000 % 10), Nat.digitChar (n / 100 % 10),
   Nat.digitChar (n / 10 % 10), Nat.digitChar (n % 10)]

/-- Character list of `datetime.isoformat()`:
`YYYY-MM-DDTHH:MM:SS` followed by `.ffffff` exactly when the
microsecond field is nonzero. -/
def isoformatChars (d : PyDateTime) : List Char :=
  pad4chars d.year ++ '-' :: pad2chars d.month ++ '-' :: pad2chars d.day ++
  'T' :: pad2chars d.hour ++ ':' :: pad2chars d.minute ++ ':' :: pad2chars d.second ++
  (if d.microsecond = 0 then [] else '.' :: pad6chars d.microsecond)

/-- Model of Python `datetime.isoformat()`. -/
def isoformat (d : PyDateTime) : String :=
  ⟨isoformatChars d⟩

/-- Numeric value of a decimal digit character. -/
def dval (c : Char) : Nat :=
  c.toNat - 48

/-- Model of the time-of-day parser used by `datetime.fromisoformat`
(`_parse_hh_mm_ss_ff`): accepts `HH`, `HH:MM`, `HH:MM:SS`,
`HH:MM:SS.fff` and `HH:MM:SS.ffffff`. -/
def parseTimeOfDay (l : List Char) : Option (Nat × Nat × Nat × Nat) :=
  match l with
  | [h1, h2] =>
    if h1.isDigit && h2.isDigit then
      some (dval h1 * 10 + dval h2, 0, 0, 0)
    else none
  | [h1, h2, c1, m1, m2] =>
    if c1 == ':' && h1.isDigit && h2.isDigit && m1.isDigit && m2.isDigit then
      some (dval h1 * 10 + dval h2, dval m1 * 10 + dval m2, 0, 0)
    else none
  | [h1, h2, c1, m1, m2, c2, s1, s2] =>
    if c1 == ':' && c2 == ':' && h1.isDigit && h2.isDigit && m1.isDigit && m2.isDigit
        && s1.isDigit && s2.isDigit then
      some (dval h1 * 10 + dval h2, dval m1 * 10 + dval m2, dval s1 * 10 + dval s2, 0)
    else none
  | [h1, h2, c1, m1, m2, c2, s1, s2, p, f1, f2, f3] =>
    if c1 == ':' && c2 == ':' && p == '.' && h1.isDigit && h2.isDigit && m1.isDigit
        && m2.isDigit && s1.isDigit && s2.isDigit && f1.isDigit && f2.isDigit && f3.isDigit then
      some (dval h1 * 10 + dval h2, dval m1 * 10 + dval m2, dval s1 * 10 + dval s2,
            (dval f1 * 100 + dval f2 * 10 + dval f3) * 1000)
    else none
  | [h1, h2, c1, m1, m2, c2, s1, s2, p, f1, f2, f3, f4, f5, f6] =>
    if c1 == ':' && c2 == ':' && p == '.' && h1.isDigit && h2.isDigit && m1.isDigit
        && m2.isDigit && s1.isDigit && s2.isDigit && f1.isDigit && f2.isDigit && f3.isDigit
        && f4.isDigit && f5.isDigit && f6.isDigit then
      some (dval h1 * 10 + dval h2, dval m1 * 10 + dval m2, dval s1 * 10 + dval s2,
            dval f1 * 100000 + dval f2 * 10000 + dval f3 * 1000 + dval f4 * 100 +
            dval f5 * 10 + dval f6)
    else none
  | _ => none

/-- Core of `datetime.fromisoformat`: `YYYY-MM-DD`, optionally followed
by a one-character separator and a time of day; field ranges are then
validated by the `datetime` constructor.  Returns `none` where Python
raises `ValueError`. -/
def fromisoChars (l : List Char) : Option PyDateTime :=
  match l with
  | y1 :: y2 :: y3 :: y4 :: dash1 :: mo1 :: mo2 :: dash2 :: d1 :: d2 :: rest =>
    if dash1 == '-' && dash2 == '-' && y1.isDigit && y2.isDigit && y3.isDigit && y4.isDigit
        && mo1.isDigit && mo2.isDigit && d1.isDigit && d2.isDigit then
      let y := dval y1 * 1000 + dval y2 * 100 + dval y3 * 10 + dval y4
      let mo := dval mo1 * 10 + dval mo2
      let da := dval d1 * 10 + dval d2
      match rest with
      | [] =>
        if validTuple y mo da 0 0 0 0 then some ⟨y, mo, da, 0, 0, 0, 0⟩ else none
      | _sep :: tpart =>
        match parseTimeOfDay tpart with
        | some (h, mi, se, us) =>
          if validTuple y mo da h mi se us then some ⟨y, mo, da, h, mi, se, us⟩ else none
        | none => none
    else none
  | _ => none

/-- Model of Python `datetime.fromisoformat`. -/
def fromisoformat (s : String) : Option PyDateTime :=
  fromisoChars s.toList

/-!
## Persistence layer: `TaskRepository` (src/main.py lines 107-302)

The SQLite file is modelled as the list of rows of the single `tasks`
table; the sqlite connection handle is modelled by an open/closed flag
(`close()` sets `self._connection = None`, `_get_connection()` lazily
reconnects to the same `db_path`).  A `fault` flag injects the
environmental `sqlite3.Error` failures (connection or statement
failure); `fault = false` is normal operation.
-/

/-- Python exceptions that can cross the boundaries modelled here. -/
inductive PyExn where
  | keyError (k : String)
  | sqliteError
  | exn
deriving DecidableEq, Repr

/-- One row of the `tasks` table: `id TEXT PRIMARY KEY`,
`text TEXT NOT NULL`, `notification_time TEXT` (nullable),
`created_at TEXT NOT NULL`. -/
structure Row where
  id : String
  text : String
  notification_time : Option String
  created_at : String
deriving DecidableEq, Repr

/-- The possible values of the `notification_time` slot of a task dict
passed to `save_task`: a `datetime` or a raw string.  (`None`/absent is
the `none` of the surrounding `Option`.) -/
inductive NTVal where
  | dt (d : PyDateTime)
  | str (s : String)
deriving DecidableEq, Repr

/-- A Python task dict as consumed by `TaskRepository.save_task`:
`none` in a field means the key is missing (`task['id']` then raises
`KeyError`; `task.get(...)` returns `None`).  `created_at?` is `some`
exactly when the key holds a `datetime` instance (any other value makes
`save_task` substitute `datetime.now()`). -/
structure TaskDict where
  id? : Option String
  text? : Option String
  notification_time? : Option NTVal
  created_at? : Option PyDateTime
deriving DecidableEq, Repr

/-- Repository state: connection handle (open or `None`) plus the
persisted table contents of the database file at `db_path`. -/
structure Repo where
  connectionOpen : Bool
  table : List Row
deriving DecidableEq, Repr

/-- `TaskRepository._get_connection`: reuse the live connection, else
reconnect; a failing `sqlite3.connect` is logged and re-raised. -/
def Repo.getConnection (fault : Bool) (r : Repo) : Except PyExn Repo :=
  if r.connectionOpen then Except.ok r
  else if fault then Except.error PyExn.sqliteError
  else Except.ok { r with connectionOpen := true }

/-- The TEXT value bound for `notification_time` by `save_task`:
a truthy `datetime` is serialized with `isoformat()`; any other value
(raw string, empty string) is bound unchanged; `None`/missing binds
SQL `NULL`. -/
def ntStored (v : Option NTVal) : Option String :=
  match v with
  | none => none
  | some (NTVal.dt d) => some (isoformat d)
  | some (NTVal.str s) => some s

/-- Body of `TaskRepository.save_task` before its `except sqlite3.Error`
handler: get the connection, serialize the timestamp fields, then run
`INSERT OR REPLACE` keyed on `id`.  `task['id']` / `task['text']` raise
`KeyError` when missing; `now` is the wall clock used to default a
missing `created_at`. -/
def save_task_body (fault : Bool) (now : PyDateTime) (r : Repo) (task : TaskDict) :
    Except PyExn (Bool × Repo) :=
  match r.getConnection fault with
  | Except.error e => Except.error e
  | Except.ok r1 =>
    let nt := ntStored task.notification_time?
    let ca := isoformat (task.created_at?.getD now)
    match task.id? with
    | none => Except.error (PyExn.keyError "id")
    | some id =>
      match task.text? with
      | none => Except.error (PyExn.keyError "text")
      | some text =>
        if fault then Except.error PyExn.sqliteError
        else
          Except.ok (true,
            { r1 with table := r1.table.filter (fun q => q.id != id) ++ [⟨id, text, nt, ca⟩] })

/-- `TaskRepository.save_task`: the body with its `except sqlite3.Error`
handler, which logs and returns `False`.  Other exceptions (such as
`KeyError`) propagate to the caller. -/
def save_task (fault : Bool) (now : PyDateTime) (r : Repo) (task : TaskDict) :
    Except PyExn (Bool × Repo) :=
  match save_task_body fault now r task with
  | Except.error PyExn.sqliteError => Except.ok (false, r)
  | Except.error e => Except.error e
  | Except.ok res => Except.ok res

/-- The task dict built for one fetched row inside
`TaskRepository.load_all_tasks`: `notification_time` starts as `None`
and is parsed only when the stored text is truthy and parseable
(`ValueError` is swallowed); `created_at` starts as `datetime.now()`
and keeps that default when the stored text is falsy or unparseable. -/
structure TaskOut where
  id : String
  text : String
  notification_time : Option PyDateTime
  created_at : PyDateTime
deriving DecidableEq, Repr

/-- Per-row conversion of `load_all_tasks`. -/
def loadRow (now : PyDateTime) (row : Row) : TaskOut :=
  let nt :=
    match row.notification_time with
    | some s => if s = "" then none else
        match fromisoformat s with
        | some d => some d
        | none => none
    | none => none
  let ca :=
    if row.created_at = "" then now
    else
      match fromisoformat row.created_at with
      | some d => d
      | none => now
  ⟨row.id, row.text, nt, ca⟩

/-- `TaskRepository.load_all_tasks`: fetch every row and convert each
one; `sqlite3.Error` is caught and yields the empty list. -/
def load_all_tasks (fault : Bool) (now : PyDateTime) (r : Repo) : List TaskOut × Repo :=
  match r.getConnection fault with
  | Except.error _ => ([], r)
  | Except.ok r1 => if fault then ([], r1) else (r1.table.map (loadRow now), r1)

/-- `TaskRepository.delete_task`: delete by id, report whether a row was
actually removed (`cursor.rowcount > 0`); `sqlite3.Error` yields
`False`. -/
def delete_task (fault : Bool) (r : Repo) (task_id : String) : Bool × Repo :=
  match r.getConnection fault with
  | Except.error _ => (false, r)
  | Except.ok r1 =>
    if fault then (false, r1)
    else (r1.table.any (fun q => q.id == task_id),
          { r1 with table := r1.table.filter (fun q => q.id != task_id) })

/-- `TaskRepository.close`: drop the connection handle (a no-op when it
is already `None`); the database file itself persists. -/
def Repo.close (r : Repo) : Repo :=
  { r with connectionOpen := false }

/-!
## Scheduler: `NotificationScheduler` (src/main.py lines 645-889)

Wall-clock instants are `Int`; `now` is passed explicitly where the
source reads `datetime.now()`.  `self.scheduled_notifications` (a dict
from task id to `(threading.Timer, task_text)`) is an association list
whose keys stay unique; each armed `threading.Timer` is represented by
a fresh numeric id together with its `interval` (the delay it was
constructed with) and its `finished` event flag, which stays unset for
a timer that is live in the map.  The queue drained by the daemon
thread is the `notification_queue` list; the operations append to a
`trace` of timer actions so that the cancel-before-arm ordering is
observable.
-/

/-- An armed timer plus the cached task text: the value stored in
`scheduled_notifications[task_id]`. -/
structure Entry where
  timerId : Nat
  interval : Int
  fireTime : Int
  text : String
  finished : Bool
deriving DecidableEq, Repr

/-- A `NotificationEvent` placed on the queue by
`_trigger_notification`: `{'task_id', 'task_text', 'timestamp'}`. -/
structure Event where
  task_id : String
  task_text : String
  timestamp : Int
deriving DecidableEq, Repr

/-- An observable action on an OS timer. -/
inductive TimerAction where
  | cancelTimer (id : Nat)
  | armTimer (id : Nat) (delay : Int)
deriving DecidableEq, Repr

/-- The scheduler's mutable state. -/
structure SchedState where
  scheduled_notifications : List (String × Entry)
  notification_queue : List Event
  nextTimerId : Nat
  trace : List TimerAction
deriving DecidableEq, Repr

/-- Freshly initialized scheduler: empty map, empty queue. -/
def initState : SchedState :=
  ⟨[], [], 0, []⟩

/-- Dict membership test `task_id in self.scheduled_notifications`. -/
def dictContains : List (String × Entry) → String → Bool
  | [], _ => false
  | p :: t, k => (p.1 == k) || dictContains t k

/-- Dict read `self.scheduled_notifications[task_id]` (keys are unique,
so the first match is the only one). -/
def dictLookup : List (String × Entry) → String → Option Entry
  | [], _ => none
  | p :: t, k => if p.1 == k then some p.2 else dictLookup t k

/-- Dict deletion `del self.scheduled_notifications[task_id]`. -/
def dictErase : List (String × Entry) → String → List (String × Entry)
  | [], _ => []
  | p :: t, k => if p.1 == k then dictErase t k else p :: dictErase t k

/-- Dict write `self.scheduled_notifications[task_id] = value`:
replace in place when the key exists, otherwise append. -/
def dictInsert (m : List (String × Entry)) (k : String) (v : Entry) :
    List (String × Entry) :=
  if dictContains m k then m.map (fun p => if p.1 == k then (k, v) else p)
  else m ++ [(k, v)]

/-- `NotificationScheduler.cancel_notification`: when an entry exists,
cancel its timer and delete the entry, returning `True`; otherwise
return `False` without touching anything. -/
def cancel_notification (s : SchedState) (task_id : String) : Bool × SchedState :=
  match dictLookup s.scheduled_notifications task_id with
  | some e =>
    (true,
     { s with
       scheduled_notifications := dictErase s.scheduled_notifications task_id,
       trace := s.trace ++ [TimerAction.cancelTimer e.timerId] })
  | none => (false, s)

/-- `NotificationScheduler._trigger_notification`: enqueue the event
(timestamped with the current clock) and then drop the entry from the
map if it is still there. -/
def trigger_notification (now : Int) (s : SchedState) (task_id task_text : String) :
    SchedState :=
  let s1 := { s with notification_queue := s.notification_queue ++ [⟨task_id, task_text, now⟩] }
  if dictContains s1.scheduled_notifications task_id then
    { s1 with scheduled_notifications := dictErase s1.scheduled_notifications task_id }
  else s1

/-- `NotificationScheduler.schedule_notification`: cancel a pre-existing
entry for the task; fire immediately when the requested time is not
strictly in the future; otherwise arm a fresh timer for the delay
`notification_time - now` and store the new entry. -/
def schedule_notification (now : Int) (s : SchedState) (task_id : String)
    (notification_time : Int) (task_text : String) : Bool × SchedState :=
  let s1 := if dictContains s.scheduled_notifications task_id then
      (cancel_notification s task_id).2
    else s
  if notification_time ≤ now then
    (true, trigger_notification now s1 task_id task_text)
  else
    let delay := notification_time - now
    let e : Entry := ⟨s1.nextTimerId, delay, notification_time, task_text, false⟩
    (true,
     { s1 with
       scheduled_notifications := dictInsert s1.scheduled_notifications task_id e,
       nextTimerId := s1.nextTimerId + 1,
       trace := s1.trace ++ [TimerAction.armTimer s1.nextTimerId delay] })

/-- `NotificationScheduler.get_scheduled_count`. -/
def get_scheduled_count (s : SchedState) : Nat :=
  s.scheduled_notifications.length

/-- The record produced per live entry by `get_all_scheduled`. -/
structure ScheduledInfo where
  task_id : String
  task_text : String
  remaining_seconds : Int
deriving DecidableEq, Repr

/-- `timer.finished.wait(0)`: with a zero timeout, `Event.wait` returns
the flag immediately; in the arithmetic of the source the boolean is
coerced to `0` or `1`. -/
def waitZero (e : Entry) : Int :=
  if e.finished then 1 else 0

/-- `NotificationScheduler.get_all_scheduled`: the source computes
`remaining_time = timer.interval - timer.finished.wait(0)` and clamps
it at zero.  Note that no clock is consulted: the function's result
does not depend on the current time at all. -/
def get_all_scheduled (s : SchedState) : List ScheduledInfo :=
  s.scheduled_notifications.map
    (fun p => ⟨p.1, p.2.text, max 0 (p.2.interval - waitZero p.2)⟩)

/-!
## Delivery: `_show_notification` / `_fallback_notification`
(src/main.py lines 767-841)

The environment records which steps of the chain would fail: whether
the platform strategy's body raises, whether it reports success,
whether a UI fallback handler is registered and whether calling it
raises, and whether the direct Tkinter message-box path raises.  Each
`try/except` of the source is an explicit match; `Except.error` escapes
a function only where the source lets an exception propagate.
-/

/-- Failure-mode environment for one delivery. -/
structure DeliveryEnv where
  nativeRaises : Bool
  nativeSucceeds : Bool
  handlerRegistered : Bool
  handlerRaises : Bool
  tkRaises : Bool
deriving DecidableEq, Repr

/-- How the event finally became visible. -/
inductive Delivered where
  | handler
  | messageBox
  | consoleLog
deriving DecidableEq, Repr

deriving instance DecidableEq for Except

/-- The raw body of the platform strategy's `show_notification`
(e.g. the `osascript` call), before its own `except` clause. -/
def native_show_raw (env : DeliveryEnv) : Except PyExn Bool :=
  if env.nativeRaises then Except.error PyExn.exn else Except.ok env.nativeSucceeds

/-- A platform `NotificationStrategy.show_notification`: every strategy
wraps its body in `try/except Exception`, logging and returning
`False` on an exception. -/
def strategy_show_notification (env : DeliveryEnv) : Bool :=
  match native_show_raw env with
  | Except.ok b => b
  | Except.error _ => false

/-- Invoking the registered fallback handler (the GUI callback). -/
def fallback_handler_raw (env : DeliveryEnv) : Except PyExn Unit :=
  if env.handlerRaises then Except.error PyExn.exn else Except.ok ()

/-- The Tkinter message-box attempt inside `_fallback_notification`. -/
def tk_messagebox_raw (env : DeliveryEnv) : Except PyExn Unit :=
  if env.tkRaises then Except.error PyExn.exn else Except.ok ()

/-- The tail of `_fallback_notification`: try the Tkinter message box;
any exception is caught and the event is printed to the console as the
delivery of last resort. -/
def tkPart (env : DeliveryEnv) : Except PyExn Delivered :=
  match tk_messagebox_raw env with
  | Except.ok _ => Except.ok Delivered.messageBox
  | Except.error _ => Except.ok Delivered.consoleLog

/-- `NotificationScheduler._fallback_notification`: prefer the
registered handler (exceptions from it are caught and logged, then the
chain continues), else fall through to the message box / console. -/
def fallback_notification (env : DeliveryEnv) : Except PyExn Delivered :=
  if env.handlerRegistered then
    match fallback_handler_raw env with
    | Except.ok _ => Except.ok Delivered.handler
    | Except.error _ => tkPart env
  else tkPart env

/-- `NotificationScheduler._show_notification`: run the platform
strategy, then invoke the fallback path in both the success and the
failure branch. -/
def show_notification (env : DeliveryEnv) : Except PyExn (Bool × Delivered) := do
  let success := strategy_show_notification env
  if success then
    let d ← fallback_notification env
    return (true, d)
  else
    let d ← fallback_notification env
    return (false, d)

/-!
## Startup reconciliation (src/main.py lines 619-627 and 1143-1162)

`todolist.tasks` may mix legacy plain-string tasks and dict tasks;
`get_scheduled_tasks` keeps the dict tasks with a truthy
`notification_time`, and `_reschedule_loaded_notifications` re-arms the
scheduler for those whose id is truthy and whose time is strictly in
the future.
-/

/-- An element of `todolist.tasks`: a legacy string or a task dict
(with the fields reconciliation reads). -/
inductive TaskItem where
  | legacy (s : String)
  | record (id? : Option String) (text? : Option String) (notification_time? : Option Int)
deriving DecidableEq, Repr

/-- `todolist.get_scheduled_tasks`: dict tasks whose
`notification_time` is truthy (a `datetime` is always truthy). -/
def get_scheduled_tasks (tasks : List TaskItem) : List TaskItem :=
  tasks.filter (fun t =>
    match t with
    | TaskItem.legacy _ => false
    | TaskItem.record _ _ nt? => nt?.isSome)

/-- The loop body of `_reschedule_loaded_notifications`: schedule when
`notification_time` and `task_id` are truthy (for a string id: present
and non-empty) and the time is strictly in the future. -/
def rescheduleOne (now : Int) (s : SchedState) : TaskItem → SchedState
  | TaskItem.legacy _ => s
  | TaskItem.record id? text? nt? =>
    match nt?, id? with
    | some t, some tid =>
      if tid ≠ "" ∧ now < t then
        (schedule_notification now s tid t (text?.getD "")).2
      else s
    | _, _ => s

/-- `TodoListGUI._reschedule_loaded_notifications`. -/
def reschedule_loaded_notifications (now : Int) (s : SchedState)
    (tasks : List TaskItem) : SchedState :=
  (get_scheduled_tasks tasks).foldl (rescheduleOne now) s

/-- Boolean version of "this loaded task makes reconciliation arm a
timer for `tid`". -/
def eligibleFor (now : Int) (tid : String) : TaskItem → Bool
  | TaskItem.legacy _ => false
  | TaskItem.record id? _ nt? =>
    id? == some tid && tid != "" &&
      (match nt? with
       | some t => decide (now < t)
       | none => false)

/-- Keys of the scheduler map all distinct. -/
def KeysNodup (m : List (String × Entry)) : Prop :=
  (m.map Prod.fst).Nodup

theorem digitChar_isDigit (k : Nat) (h : k < 10) : (Nat.digitChar k).isDigit = true := by
  interval_cases k <;> decide

theorem dval_digitChar (k : Nat) (h : k < 10) : dval (Nat.digitChar k) = k := by
  interval_cases k <;> decide

theorem daysInMonth_le (y m : Nat) : daysInMonth y m ≤ 31 := by
  unfold daysInMonth
  split
  · split <;> omega
  · split <;> omega

theorem isoformat_ne_empty (d : PyDateTime) : isoformat d ≠ "" := by
  intro h
  have hdata : (isoformat d).data = ("" : String).data := by rw [h]
  simp [isoformat, isoformatChars, pad4chars] at hdata

/-- Round trip of the serialization: parsing the ISO string printed for a
valid datetime recovers the datetime exactly. -/
theorem fromisoformat_isoformat (d : PyDateTime) (h : d.validb = true) :
    fromisoformat (isoformat d) = some d := by
  obtain ⟨y, mo, da, hh, mi, se, us⟩ := d
  simp only [PyDateTime.validb, validTuple, Bool.and_eq_true, decide_eq_true_eq] at h
  obtain ⟨⟨⟨⟨⟨⟨⟨⟨⟨hy1, hy2⟩, hmo1⟩, hmo2⟩, hda1⟩, hda2⟩, hhh⟩, hmi⟩, hse⟩, hus⟩ := h
  have hda31 : da ≤ 31 := le_trans hda2 (daysInMonth_le y mo)
  have e1 : dval (Nat.digitChar (y / 1000)) = y / 1000 := dval_digitChar _ (by omega)
  have e2 : dval (Nat.digitChar (y / 100 % 10)) = y / 100 % 10 := dval_digitChar _ (by omega)
  have e3 : dval (Nat.digitChar (y / 10 % 10)) = y / 10 % 10 := dval_digitChar _ (by omega)
  have e4 : dval (Nat.digitChar (y % 10)) = y % 10 := dval_digitChar _ (by omega)
  have e5 : dval (Nat.digitChar (mo / 10)) = mo / 10 := dval_digitChar _ (by omega)
  have e6 : dval (Nat.digitChar (mo % 10)) = mo % 10 := dval_digitChar _ (by omega)
  have e7 : dval (Nat.digitChar (da / 10)) = da / 10 := dval_digitChar _ (by omega)
  have e8 : dval (Nat.digitChar (da % 10)) = da % 10 := dval_digitChar _ (by omega)
  have e9 : dval (Nat.digitChar (hh / 10)) = hh / 10 := dval_digitChar _ (by omega)
  have e10 : dval (Nat.digitChar (hh % 10)) = hh % 10 := dval_digitChar _ (by omega)
  have e11 : dval (Nat.digitChar (mi / 10)) = mi / 10 := dval_digitChar _ (by omega)
  have e12 : dval (Nat.digitChar (mi % 10)) = mi % 10 := dval_digitChar _ (by omega)
  have e13 : dval (Nat.digitChar (se / 10)) = se / 10 := dval_digitChar _ (by omega)
  have e14 : dval (Nat.digitChar (se % 10)) = se % 10 := dval_digitChar _ (by omega)
  have dy1 : (Nat.digitChar (y / 1000)).isDigit = true := digitChar_isDigit _ (by omega)
  have dy2 : (Nat.digitChar (y / 100 % 10)).isDigit = true := digitChar_isDigit _ (by omega)
  have dy3 : (Nat.digitChar (y / 10 % 10)).isDigit = true := digitChar_isDigit _ (by omega)
  have dy4 : (Nat.digitChar (y % 10)).isDigit = true := digitChar_isDigit _ (by omega)
  have dmo1 : (Nat.digitChar (mo / 10)).isDigit = true := digitChar_isDigit _ (by omega)
  have dmo2 : (Nat.digitChar (mo % 10)).isDigit = true := digitChar_isDigit _ (by omega)
  have dda1 : (Nat.digitChar (da / 10)).isDigit = true := digitChar_isDigit _ (by omega)
  have dda2 : (Nat.digitChar (da % 10)).isDigit = true := digitChar_isDigit _ (by omega)
  have dhh1 : (Nat.digitChar (hh / 10)).isDigit = true := digitChar_isDigit _ (by omega)
  have dhh2 : (Nat.digitChar (hh % 10)).isDigit = true := digitChar_isDigit _ (by omega)
  have dmi1 : (Nat.digitChar (mi / 10)).isDigit = true := digitChar_isDigit _ (by omega)
  have dmi2 : (Nat.digitChar (mi % 10)).isDigit = true := digitChar_isDigit _ (by omega)
  have dse1 : (Nat.digitChar (se / 10)).isDigit = true := digitChar_isDigit _ (by omega)
  have dse2 : (Nat.digitChar (se % 10)).isDigit = true := digitChar_isDigit _ (by omega)
  have hyrec : y / 1000 * 1000 + (y / 100 % 10) * 100 + (y / 10 % 10) * 10 + y % 10 = y := by
    omega
  have hmorec : mo / 10 * 10 + mo % 10 = mo := by omega
  have hdarec : da / 10 * 10 + da % 10 = da := by omega
  have hhhrec : hh / 10 * 10 + hh % 10 = hh := by omega
  have hmirec : mi / 10 * 10 + mi % 10 = mi := by omega
  have hserec : se / 10 * 10 + se % 10 = se := by omega
  have hvalid : validTuple y mo da hh mi se us = true := by
    simp only [validTuple, Bool.and_eq_true, decide_eq_true_eq]
    exact ⟨⟨⟨⟨⟨⟨⟨⟨⟨hy1, hy2⟩, hmo1⟩, hmo2⟩, hda1⟩, hda2⟩, hhh⟩, hmi⟩, hse⟩, hus⟩
  by_cases husz : us = 0
  · simp only [fromisoformat, isoformat, String.toList, isoformatChars, pad4chars, pad2chars,
      husz, if_pos, List.cons_append, List.nil_append]
    simp only [fromisoChars, dy1, dy2, dy3, dy4, dmo1, dmo2, dda1, dda2, Bool.and_true,
      Bool.true_and, beq_self_eq_true, Bool.and_self, if_true]
    simp only [parseTimeOfDay, dhh1, dhh2, dmi1, dmi2, dse1, dse2, beq_self_eq_true,
      Bool.and_true, Bool.true_and, Bool.and_self, if_true]
    simp only [e1, e2, e3, e4, e5, e6, e7, e8, e9, e10, e11, e12, e13, e14,
      hyrec, hmorec, hdarec, hhhrec, hmirec, hserec]
    rw [husz] at hvalid
    simp only [hvalid, if_true, husz]
  · have e15 : dval (Nat.digitChar (us / 100000)) = us / 100000 := dval_digitChar _ (by omega)
    have e16 : dval (Nat.digitChar (us / 10000 % 10)) = us / 10000 % 10 :=
      dval_digitChar _ (by omega)
    have e17 : dval (Nat.digitChar (us / 1000 % 10)) = us / 1000 % 10 :=
      dval_digitChar _ (by omega)
    have e18 : dval (Nat.digitChar (us / 100 % 10)) = us / 100 % 10 :=
      dval_digitChar _ (by omega)
    have e19 : dval (Nat.digitChar (us / 10 % 10)) = us / 10 % 10 :=
      dval_digitChar _ (by omega)
    have e20 : dval (Nat.digitChar (us % 10)) = us % 10 := dval_digitChar _ (by omega)
    have dus1 : (Nat.digitChar (us / 100000)).isDigit = true := digitChar_isDigit _ (by omega)
    have dus2 : (Nat.digitChar (us / 10000 % 10)).isDigit = true :=
      digitChar_isDigit _ (by omega)
    have dus3 : (Nat.digitChar (us / 1000 % 10)).isDigit = true :=
      digitChar_isDigit _ (by omega)
    have dus4 : (Nat.digitChar (us / 100 % 10)).isDigit = true :=
      digitChar_isDigit _ (by omega)
    have dus5 : (Nat.digitChar (us / 10 % 10)).isDigit = true := digitChar_isDigit _ (by omega)
    have dus6 : (Nat.digitChar (us % 10)).isDigit = true := digitChar_isDigit _ (by omega)
    have husrec : us / 100000 * 100000 + us / 10000 % 10 * 10000 + us / 1000 % 10 * 1000 +
        us / 100 % 10 * 100 + us / 10 % 10 * 10 + us % 10 = us := by omega
    simp only [fromisoformat, isoformat, String.toList, isoformatChars, pad4chars, pad2chars,
      pad6chars, if_neg husz, List.cons_append, List.nil_append]
    simp only [fromisoChars, dy1, dy2, dy3, dy4, dmo1, dmo2, dda1, dda2, Bool.and_true,
      Bool.true_and, beq_self_eq_true, Bool.and_self, if_true]
    simp only [parseTimeOfDay, dhh1, dhh2, dmi1, dmi2, dse1, dse2, dus1, dus2, dus3, dus4,
      dus5, dus6, beq_self_eq_true, Bool.and_true, Bool.true_and, Bool.and_self, if_true]
    simp only [e1, e2, e3, e4, e5, e6, e7, e8, e9, e10, e11, e12, e13, e14, e15, e16, e17,
      e18, e19, e20, hyrec, hmorec, hdarec, hhhrec, hmirec, hserec, husrec]
    simp only [hvalid, if_true]

/-!
## Association-list (Python dict) lemmas
-/

theorem dictContains_eq_isSome (m : List (String × Entry)) (k : String) :
    dictContains m k = (dictLookup m k).isSome := by
  induction m with
  | nil => rfl
  | cons a t ih =>
    by_cases h : a.1 = k
    · simp [dictContains, dictLookup, h]
    · have hb : (a.1 == k) = false := by simp [h]
      simp [dictContains, dictLookup, hb, ih]

theorem dictLookup_erase_self (m : List (String × Entry)) (k : String) :
    dictLookup (dictErase m k) k = none := by
  induction m with
  | nil => rfl
  | cons a t ih =>
    by_cases h : a.1 = k
    · simpa [dictErase, h] using ih
    · have hb : (a.1 == k) = false := by simp [h]
      simpa [dictErase, dictLookup, hb] using ih

theorem dictLookup_erase_ne (m : List (String × Entry)) (k k' : String) (h : k' ≠ k) :
    dictLookup (dictErase m k) k' = dictLookup m k' := by
  induction m with
  | nil => rfl
  | cons a t ih =>
    by_cases ha : a.1 = k
    · have hbk : (a.1 == k) = true := by simp [ha]
      have hbe : (a.1 == k') = false := by
        simp only [beq_eq_false_iff_ne, ne_eq]
        intro hkk
        exact h (by rw [← hkk, ha])
      rw [show dictErase (a :: t) k = dictErase t k from by simp [dictErase, hbk]]
      rw [show dictLookup (a :: t) k' = dictLookup t k' from by simp [dictLookup, hbe]]
      exact ih
    · have hbk : (a.1 == k) = false := by simp [ha]
      rw [show dictErase (a :: t) k = a :: dictErase t k from by simp [dictErase, hbk]]
      by_cases hk' : a.1 = k'
      · have hbe : (a.1 == k') = true := by simp [hk']
        simp [dictLookup, hbe]
      · have hbe : (a.1 == k') = false := by simp [hk']
        simp [dictLookup, hbe, ih]

theorem dictErase_of_not_contains (m : List (String × Entry)) (k : String)
    (h : dictContains m k = false) : dictErase m k = m := by
  induction m with
  | nil => rfl
  | cons a t ih =>
    simp only [dictContains, Bool.or_eq_false_iff] at h
    simp [dictErase, h.1, ih h.2]

theorem dictLookup_append_single (m : List (String × Entry)) (k : String) (v : Entry)
    (h : dictContains m k = false) : dictLookup (m ++ [(k, v)]) k = some v := by
  induction m with
  | nil => simp [dictLookup]
  | cons a t ih =>
    simp only [dictContains, Bool.or_eq_false_iff] at h
    simp [dictLookup, h.1, ih h.2]

/-!
## Unfolding equations for `schedule_notification`
-/

theorem schedule_past_contains (now t : Int) (s : SchedState) (tid txt : String) (e : Entry)
    (he : dictLookup s.scheduled_notifications tid = some e) (h : t ≤ now) :
    schedule_notification now s tid t txt =
      (true,
       { s with
         scheduled_notifications := dictErase s.scheduled_notifications tid,
         notification_queue := s.notification_queue ++ [⟨tid, txt, now⟩],
         trace := s.trace ++ [TimerAction.cancelTimer e.timerId] }) := by
  have hc : dictContains s.scheduled_notifications tid = true := by
    rw [dictContains_eq_isSome, he]
    rfl
  have hc2 : dictContains (dictErase s.scheduled_notifications tid) tid = false := by
    rw [dictContains_eq_isSome, dictLookup_erase_self]
    rfl
  simp [schedule_notification, hc, cancel_notification, he, trigger_notification, h, hc2]

theorem schedule_past_not_contains (now t : Int) (s : SchedState) (tid txt : String)
    (hc : dictContains s.scheduled_notifications tid = false) (h : t ≤ now) :
    schedule_notification now s tid t txt =
      (true, { s with notification_queue := s.notification_queue ++ [⟨tid, txt, now⟩] }) := by
  simp [schedule_notification, hc, trigger_notification, h]

theorem schedule_future_contains (now t : Int) (s : SchedState) (tid txt : String) (e : Entry)
    (he : dictLookup s.scheduled_notifications tid = some e) (h : now < t) :
    schedule_notification now s tid t txt =
      (true,
       { s with
         scheduled_notifications :=
           dictErase s.scheduled_notifications tid ++
             [(tid, ⟨s.nextTimerId, t - now, t, txt, false⟩)],
         nextTimerId := s.nextTimerId + 1,
         trace := s.trace ++ [TimerAction.cancelTimer e.timerId,
                              TimerAction.armTimer s.nextTimerId (t - now)] }) := by
  have hc : dictContains s.scheduled_notifications tid = true := by
    rw [dictContains_eq_isSome, he]
    rfl
  have hc2 : dictContains (dictErase s.scheduled_notifications tid) tid = false := by
    rw [dictContains_eq_isSome, dictLookup_erase_self]
    rfl
  have hnot : ¬ t ≤ now := not_le.mpr h
  simp [schedule_notification, hc, cancel_notification, he, hnot, dictInsert, hc2]

theorem schedule_future_not_contains (now t : Int) (s : SchedState) (tid txt : String)
    (hc : dictContains s.scheduled_notifications tid = false) (h : now < t) :
    schedule_notification now s tid t txt =
      (true,
       { s with
         scheduled_notifications :=
           s.scheduled_notifications ++ [(tid, ⟨s.nextTimerId, t - now, t, txt, false⟩)],
         nextTimerId := s.nextTimerId + 1,
         trace := s.trace ++ [TimerAction.armTimer s.nextTimerId (t - now)] }) := by
  have hnot : ¬ t ≤ now := not_le.mpr h
  simp [schedule_notification, hc, hnot, dictInsert]

/-- C1: for every call to `schedule_notification` whose fire time is not
strictly in the future (`fire_time <= now`), the scheduler fires on the
synchronous path: exactly one `NotificationEvent` for the task is
enqueued during the call, no timer is armed (the timer counter is
untouched and the only possible timer action is the cancellation of a
pre-existing entry), the call returns `True`, and afterwards no entry
for the task id remains in the map, so `get_scheduled_count` counts
zero pending entries for it. -/
theorem C1_past_due_immediate (now t : Int) (s : SchedState) (tid txt : String)
    (h : t ≤ now) :
    (schedule_notification now s tid t txt).1 = true ∧
    (schedule_notification now s tid t txt).2.notification_queue
      = s.notification_queue ++ [⟨tid, txt, now⟩] ∧
    (schedule_notification now s tid t txt).2.nextTimerId = s.nextTimerId ∧
    ((schedule_notification now s tid t txt).2.trace = s.trace ∨
     ∃ i, (schedule_notification now s tid t txt).2.trace
       = s.trace ++ [TimerAction.cancelTimer i]) ∧
    dictLookup (schedule_notification now s tid t txt).2.scheduled_notifications tid = none ∧
    get_scheduled_count (schedule_notification now s tid t txt).2
      = (dictErase s.scheduled_notifications tid).length := by
  by_cases hc : dictContains s.scheduled_notifications tid = true
  · obtain ⟨e, he⟩ : ∃ e, dictLookup s.scheduled_notifications tid = some e := by
      rw [dictContains_eq_isSome] at hc
      exact Option.isSome_iff_exists.mp hc
    rw [schedule_past_contains now t s tid txt e he h]
    exact ⟨rfl, rfl, rfl, Or.inr ⟨e.timerId, rfl⟩, dictLookup_erase_self _ _, rfl⟩
  · have hcf : dictContains s.scheduled_notifications tid = false :=
      Bool.not_eq_true _ ▸ eq_false_of_ne_true hc
    have hnone : dictLookup s.scheduled_notifications tid = none := by
      rw [dictContains_eq_isSome] at hcf
      exact Option.not_isSome_iff_eq_none.mp (by simp [hcf])
    rw [schedule_past_not_contains now t s tid txt hcf h]
    refine ⟨rfl, rfl, rfl, Or.inl rfl, hnone, ?_⟩
    rw [dictErase_of_not_contains _ _ hcf]
    rfl

/-- Witness for C1 at a concrete input: scheduling at clock 20 a
notification due at 15. -/
theorem C1_past_due_immediate_witness :
    ((15 : Int) ≤ 20) ∧
    ((schedule_notification 20 initState "a" 15 "milk").1 = true ∧
     (schedule_notification 20 initState "a" 15 "milk").2.notification_queue
       = initState.notification_queue ++ [⟨"a", "milk", 20⟩] ∧
     (schedule_notification 20 initState "a" 15 "milk").2.nextTimerId
       = initState.nextTimerId ∧
     ((schedule_notification 20 initState "a" 15 "milk").2.trace = initState.trace ∨
      ∃ i, (schedule_notification 20 initState "a" 15 "milk").2.trace
        = initState.trace ++ [TimerAction.cancelTimer i]) ∧
     dictLookup (schedule_notification 20 initState "a" 15 "milk").2.scheduled_notifications
       "a" = none ∧
     get_scheduled_count (schedule_notification 20 initState "a" 15 "milk").2
       = (dictErase initState.scheduled_notifications "a").length) :=
  ⟨by decide, C1_past_due_immediate 20 15 initState "a" "milk" (by decide)⟩

/-- C3: `cancel_notification` returns `True` and removes the entry
(recording the cancellation of its timer) when an entry exists; returns
`False` without modifying any state when none exists; and cancelling
twice in a row always has the second call return `False`. -/
theorem C3_cancel_semantics (s : SchedState) (tid : String) :
    (dictLookup s.scheduled_notifications tid = none →
      cancel_notification s tid = (false, s)) ∧
    (∀ e, dictLookup s.scheduled_notifications tid = some e →
      (cancel_notification s tid).1 = true ∧
      (cancel_notification s tid).2.scheduled_notifications
        = dictErase s.scheduled_notifications tid ∧
      dictLookup (cancel_notification s tid).2.scheduled_notifications tid = none ∧
      (cancel_notification s tid).2.trace
        = s.trace ++ [TimerAction.cancelTimer e.timerId]) ∧
    (cancel_notification (cancel_notification s tid).2 tid).1 = false := by
  refine ⟨?_, ?_, ?_⟩
  · intro h
    simp [cancel_notification, h]
  · intro e he
    simp [cancel_notification, he, dictLookup_erase_self]
  · match hl : dictLookup s.scheduled_notifications tid with
    | none => simp [cancel_notification, hl]
    | some e => simp [cancel_notification, hl, dictLookup_erase_self]

/-- Witness for C3 at a concrete state holding one entry for `"a"`. -/
theorem C3_cancel_semantics_witness :
    (dictLookup (SchedState.mk [("a", ⟨0, 5, 5, "x", false⟩)] [] 1 []).scheduled_notifications
        "a" = none →
      cancel_notification (SchedState.mk [("a", ⟨0, 5, 5, "x", false⟩)] [] 1 []) "a"
        = (false, SchedState.mk [("a", ⟨0, 5, 5, "x", false⟩)] [] 1 [])) ∧
    (∀ e, dictLookup
        (SchedState.mk [("a", ⟨0, 5, 5, "x", false⟩)] [] 1 []).scheduled_notifications "a"
          = some e →
      (cancel_notification (SchedState.mk [("a", ⟨0, 5, 5, "x", false⟩)] [] 1 []) "a").1
        = true ∧
      (cancel_notification
        (SchedState.mk [("a", ⟨0, 5, 5, "x", false⟩)] [] 1 []) "a").2.scheduled_notifications
        = dictErase
            (SchedState.mk [("a", ⟨0, 5, 5, "x", false⟩)] [] 1 []).scheduled_notifications
            "a" ∧
      dictLookup
        (cancel_notification
          (SchedState.mk [("a", ⟨0, 5, 5, "x", false⟩)] [] 1 []) "a").2.scheduled_notifications
          "a" = none ∧
      (cancel_notification (SchedState.mk [("a", ⟨0, 5, 5, "x", false⟩)] [] 1 []) "a").2.trace
        = (SchedState.mk [("a", ⟨0, 5, 5, "x", false⟩)] [] 1 []).trace
            ++ [TimerAction.cancelTimer e.timerId]) ∧
    (cancel_notification
      (cancel_notification (SchedState.mk [("a", ⟨0, 5, 5, "x", false⟩)] [] 1 []) "a").2
      "a").1 = false :=
  C3_cancel_semantics (SchedState.mk [("a", ⟨0, 5, 5, "x", false⟩)] [] 1 []) "a"

/-!
## Key-uniqueness lemmas for the scheduler map
-/

theorem dictErase_eq_filter (m : List (String × Entry)) (k : String) :
    dictErase m k = m.filter (fun p => !(p.1 == k)) := by
  induction m with
  | nil => rfl
  | cons a t ih =>
    by_cases hb : (a.1 == k) = true
    · simp [dictErase, hb, ih]
    · simp [dictErase, eq_false_of_ne_true hb, ih]

theorem keysNodup_erase (m : List (String × Entry)) (k : String) (h : KeysNodup m) :
    KeysNodup (dictErase m k) := by
  rw [KeysNodup, dictErase_eq_filter]
  exact List.Nodup.sublist ((List.filter_sublist m).map Prod.fst) h

theorem not_mem_keys_of_not_contains (m : List (String × Entry)) (k : String)
    (h : dictContains m k = false) : k ∉ m.map Prod.fst := by
  induction m with
  | nil => simp
  | cons a t ih =>
    simp only [dictContains, Bool.or_eq_false_iff] at h
    simp only [List.map_cons, List.mem_cons]
    rintro (h1 | hmem)
    · rw [h1] at h
      simpa using h.1
    · exact ih h.2 hmem

theorem keysNodup_append_single (m : List (String × Entry)) (k : String) (v : Entry)
    (hc : dictContains m k = false) (h : KeysNodup m) : KeysNodup (m ++ [(k, v)]) := by
  rw [KeysNodup, List.map_append]
  rw [List.nodup_append]
  refine ⟨h, by simp, ?_⟩
  intro x hx
  simp only [List.map_cons, List.map_nil, List.mem_singleton]
  intro hxk
  exact not_mem_keys_of_not_contains m k hc (hxk ▸ hx)

theorem keysNodup_insert (m : List (String × Entry)) (k : String) (v : Entry)
    (h : KeysNodup m) : KeysNodup (dictInsert m k v) := by
  by_cases hc : dictContains m k = true
  · have hkeys : (m.map (fun p => if p.1 == k then (k, v) else p)).map Prod.fst
        = m.map Prod.fst := by
      rw [List.map_map]
      apply List.map_congr_left
      intro p hp
      by_cases hb : (p.1 == k) = true
      · simp only [Function.comp_apply, hb, if_pos rfl]
        exact (eq_of_beq hb).symm
      · simp [Function.comp, eq_false_of_ne_true hb]
    rw [KeysNodup, dictInsert, if_pos hc, hkeys]
    exact h
  · have hcf : dictContains m k = false := eq_false_of_ne_true hc
    rw [dictInsert, if_neg (by simp [hcf])]
    exact keysNodup_append_single m k v hcf h

theorem dictLookup_append_single_ne (m : List (String × Entry)) (k k' : String) (v : Entry)
    (h : k' ≠ k) : dictLookup (m ++ [(k, v)]) k' = dictLookup m k' := by
  induction m with
  | nil =>
    have hb : (k == k') = false := by
      simp only [beq_eq_false_iff_ne, ne_eq]
      exact fun hkk => h hkk.symm
    simp [dictLookup, hb]
  | cons a t ih =>
    by_cases hb : (a.1 == k') = true
    · simp [dictLookup, hb]
    · simp [dictLookup, eq_false_of_ne_true hb, ih]

/-- C2 counterexample: start from a state whose map has a live entry for
task `"a"` (created by a first schedule call with a future time), then
call `schedule_notification` again for `"a"` with a fire time that is
not in the future.  The old entry is removed and the notification fires
immediately, so afterwards zero — not exactly one — entries exist for
`"a"`, refuting the claim as stated. -/
theorem C2_counterexample :
    dictLookup
      (schedule_notification 20 (schedule_notification 0 initState "a" 10 "x").2
        "a" 15 "y").2.scheduled_notifications "a" = none ∧
    get_scheduled_count
      (schedule_notification 20 (schedule_notification 0 initState "a" 10 "x").2
        "a" 15 "y").2 = 0 ∧
    (0 : Nat) ≠ 1 :=
  ⟨rfl, rfl, by decide⟩

/-- C2 (amended): the entry map always holds at most one live entry per
task id (key uniqueness is preserved by every operation from the empty
initial map); when `schedule_notification` is called for a task id that
already has an entry, the old entry's timer is cancelled and the entry
removed before any new timer is armed; if the new fire time is strictly
in the future, exactly one entry — the new one — exists for that id
afterwards (and other ids are untouched); if the new fire time is not
in the future, the call fires immediately and no entry remains for the
id. -/
theorem C2_single_entry_replacement :
    KeysNodup initState.scheduled_notifications ∧
    (∀ now t : Int, ∀ s : SchedState, ∀ tid txt : String,
      KeysNodup s.scheduled_notifications →
      KeysNodup (schedule_notification now s tid t txt).2.scheduled_notifications) ∧
    (∀ s : SchedState, ∀ tid : String, KeysNodup s.scheduled_notifications →
      KeysNodup (cancel_notification s tid).2.scheduled_notifications) ∧
    (∀ now : Int, ∀ s : SchedState, ∀ tid txt : String,
      KeysNodup s.scheduled_notifications →
      KeysNodup (trigger_notification now s tid txt).scheduled_notifications) ∧
    (∀ now t : Int, ∀ s : SchedState, ∀ tid txt : String, ∀ e : Entry,
      dictLookup s.scheduled_notifications tid = some e → now < t →
      (schedule_notification now s tid t txt).2.trace
        = s.trace ++ [TimerAction.cancelTimer e.timerId,
                      TimerAction.armTimer s.nextTimerId (t - now)] ∧
      dictLookup (schedule_notification now s tid t txt).2.scheduled_notifications tid
        = some ⟨s.nextTimerId, t - now, t, txt, false⟩ ∧
      (∀ tid2, tid2 ≠ tid →
        dictLookup (schedule_notification now s tid t txt).2.scheduled_notifications tid2
          = dictLookup s.scheduled_notifications tid2)) ∧
    (∀ now t : Int, ∀ s : SchedState, ∀ tid txt : String, ∀ e : Entry,
      dictLookup s.scheduled_notifications tid = some e → t ≤ now →
      (schedule_notification now s tid t txt).2.trace
        = s.trace ++ [TimerAction.cancelTimer e.timerId] ∧
      dictLookup (schedule_notification now s tid t txt).2.scheduled_notifications tid
        = none) := by
  refine ⟨by simp [KeysNodup, initState], ?_, ?_, ?_, ?_, ?_⟩
  · intro now t s tid txt h
    by_cases hc : dictContains s.scheduled_notifications tid = true
    · obtain ⟨e, he⟩ : ∃ e, dictLookup s.scheduled_notifications tid = some e := by
        rw [dictContains_eq_isSome] at hc
        exact Option.isSome_iff_exists.mp hc
      by_cases ht : t ≤ now
      · rw [schedule_past_contains now t s tid txt e he ht]
        exact keysNodup_erase _ _ h
      · rw [schedule_future_contains now t s tid txt e he (not_le.mp ht)]
        refine keysNodup_append_single _ _ _ ?_ (keysNodup_erase _ _ h)
        rw [dictContains_eq_isSome, dictLookup_erase_self]
        rfl
    · have hcf : dictContains s.scheduled_notifications tid = false :=
        eq_false_of_ne_true hc
      by_cases ht : t ≤ now
      · rw [schedule_past_not_contains now t s tid txt hcf ht]
        exact h
      · rw [schedule_future_not_contains now t s tid txt hcf (not_le.mp ht)]
        exact keysNodup_append_single _ _ _ hcf h
  · intro s tid h
    match hl : dictLookup s.scheduled_notifications tid with
    | none => simpa [cancel_notification, hl] using h
    | some e => simpa [cancel_notification, hl] using keysNodup_erase _ tid h
  · intro now s tid txt h
    by_cases hc : dictContains s.scheduled_notifications tid = true
    · simpa [trigger_notification, hc] using keysNodup_erase _ tid h
    · simpa [trigger_notification, eq_false_of_ne_true hc] using h
  · intro now t s tid txt e he ht
    rw [schedule_future_contains now t s tid txt e he ht]
    refine ⟨by simp, ?_, ?_⟩
    · apply dictLookup_append_single
      rw [dictContains_eq_isSome, dictLookup_erase_self]
      rfl
    · intro tid2 h2
      rw [show ({ s with
            scheduled_notifications :=
              dictErase s.scheduled_notifications tid ++
                [(tid, ⟨s.nextTimerId, t - now, t, txt, false⟩)],
            nextTimerId := s.nextTimerId + 1,
            trace := s.trace ++ [TimerAction.cancelTimer e.timerId,
                                 TimerAction.armTimer s.nextTimerId (t - now)] }
          : SchedState).scheduled_notifications
        = dictErase s.scheduled_notifications tid ++
            [(tid, ⟨s.nextTimerId, t - now, t, txt, false⟩)] from rfl]
      rw [dictLookup_append_single_ne _ _ _ _ h2]
      exact dictLookup_erase_ne _ _ _ h2
  · intro now t s tid txt e he ht
    rw [schedule_past_contains now t s tid txt e he ht]
    exact ⟨rfl, dictLookup_erase_self _ _⟩

/-- Witness for the replacement part of C2 (amended): a state with one
live entry for `"a"` is rescheduled to a strictly future time; the old
timer's cancellation precedes the arming of the new timer in the trace
and the map afterwards holds exactly the new entry. -/
theorem C2_single_entry_replacement_witness :
    (dictLookup (schedule_notification 0 initState "a" 100 "x").2.scheduled_notifications "a"
      = some ⟨0, 100, 100, "x", false⟩) ∧
    ((50 : Int) < 200) ∧
    ((schedule_notification 50 (schedule_notification 0 initState "a" 100 "x").2
        "a" 200 "y").2.trace
      = (schedule_notification 0 initState "a" 100 "x").2.trace
          ++ [TimerAction.cancelTimer (Entry.mk 0 100 100 "x" false).timerId,
              TimerAction.armTimer
                (schedule_notification 0 initState "a" 100 "x").2.nextTimerId (200 - 50)] ∧
     dictLookup (schedule_notification 50 (schedule_notification 0 initState "a" 100 "x").2
        "a" 200 "y").2.scheduled_notifications "a"
      = some ⟨(schedule_notification 0 initState "a" 100 "x").2.nextTimerId,
              200 - 50, 200, "y", false⟩ ∧
     (∀ tid2, tid2 ≠ "a" →
       dictLookup (schedule_notification 50 (schedule_notification 0 initState "a" 100 "x").2
          "a" 200 "y").2.scheduled_notifications tid2
        = dictLookup
            (schedule_notification 0 initState "a" 100 "x").2.scheduled_notifications tid2)) :=
  ⟨rfl, by decide,
   C2_single_entry_replacement.2.2.2.2.1 50 200
     (schedule_notification 0 initState "a" 100 "x").2 "a" "y"
     (Entry.mk 0 100 100 "x" false) rfl (by decide)⟩

/-!
## Effect of a strictly-future schedule call (used for reconciliation)
-/

theorem schedule_future_queue (now t : Int) (s : SchedState) (tid txt : String)
    (h : now < t) :
    (schedule_notification now s tid t txt).2.notification_queue
      = s.notification_queue := by
  by_cases hc : dictContains s.scheduled_notifications tid = true
  · have hs : (dictLookup s.scheduled_notifications tid).isSome = true := by
      rw [← dictContains_eq_isSome]
      exact hc
    obtain ⟨e, he⟩ := Option.isSome_iff_exists.mp hs
    rw [schedule_future_contains now t s tid txt e he h]
  · rw [schedule_future_not_contains now t s tid txt (eq_false_of_ne_true hc) h]

theorem schedule_future_lookup_self (now t : Int) (s : SchedState) (tid txt : String)
    (h : now < t) :
    (dictLookup (schedule_notification now s tid t txt).2.scheduled_notifications
      tid).isSome = true := by
  by_cases hc : dictContains s.scheduled_notifications tid = true
  · have hs : (dictLookup s.scheduled_notifications tid).isSome = true := by
      rw [← dictContains_eq_isSome]
      exact hc
    obtain ⟨e, he⟩ := Option.isSome_iff_exists.mp hs
    rw [schedule_future_contains now t s tid txt e he h]
    have hc2 : dictContains (dictErase s.scheduled_notifications tid) tid = false := by
      rw [dictContains_eq_isSome, dictLookup_erase_self]
      rfl
    rw [show ∀ s2 : SchedState, dictLookup s2.scheduled_notifications tid
        = dictLookup s2.scheduled_notifications tid from fun _ => rfl]
    rw [dictLookup_append_single _ _ _ hc2]
    rfl
  · rw [schedule_future_not_contains now t s tid txt (eq_false_of_ne_true hc) h]
    rw [dictLookup_append_single _ _ _ (eq_false_of_ne_true hc)]
    rfl

theorem schedule_future_lookup_ne (now t : Int) (s : SchedState) (tid tid2 txt : String)
    (h : now < t) (h2 : tid2 ≠ tid) :
    dictLookup (schedule_notification now s tid t txt).2.scheduled_notifications tid2
      = dictLookup s.scheduled_notifications tid2 := by
  by_cases hc : dictContains s.scheduled_notifications tid = true
  · have hs : (dictLookup s.scheduled_notifications tid).isSome = true := by
      rw [← dictContains_eq_isSome]
      exact hc
    obtain ⟨e, he⟩ := Option.isSome_iff_exists.mp hs
    rw [schedule_future_contains now t s tid txt e he h]
    rw [dictLookup_append_single_ne _ _ _ _ h2]
    exact dictLookup_erase_ne _ _ _ h2
  · rw [schedule_future_not_contains now t s tid txt (eq_false_of_ne_true hc) h]
    exact dictLookup_append_single_ne _ _ _ _ h2

theorem reschedule_cons (now : Int) (s : SchedState) (x : TaskItem) (xs : List TaskItem) :
    reschedule_loaded_notifications now s (x :: xs)
      = reschedule_loaded_notifications now (rescheduleOne now s x) xs := by
  cases x with
  | legacy str =>
    simp [reschedule_loaded_notifications, get_scheduled_tasks, List.filter_cons,
      rescheduleOne]
  | record id? text? nt? =>
    cases nt? with
    | none =>
      cases id? <;>
        simp [reschedule_loaded_notifications, get_scheduled_tasks, List.filter_cons,
          rescheduleOne]
    | some t =>
      cases id? <;>
        simp [reschedule_loaded_notifications, get_scheduled_tasks, List.filter_cons,
          rescheduleOne]

theorem rescheduleOne_queue (now : Int) (s : SchedState) (x : TaskItem) :
    (rescheduleOne now s x).notification_queue = s.notification_queue := by
  cases x with
  | legacy str => rfl
  | record id? text? nt? =>
    cases nt? with
    | none => rfl
    | some t =>
      cases id? with
      | none => rfl
      | some tidx =>
        by_cases hcond : tidx ≠ "" ∧ now < t
        · simp only [rescheduleOne, if_pos hcond]
          exact schedule_future_queue now t s tidx (text?.getD "") hcond.2
        · simp [rescheduleOne, hcond]

theorem reschedule_queue (now : Int) (xs : List TaskItem) (s : SchedState) :
    (reschedule_loaded_notifications now s xs).notification_queue
      = s.notification_queue := by
  induction xs generalizing s with
  | nil => rfl
  | cons x xs ih =>
    rw [reschedule_cons, ih, rescheduleOne_queue]

theorem rescheduleOne_lookup (now : Int) (s : SchedState) (x : TaskItem) (tid : String) :
    (dictLookup (rescheduleOne now s x).scheduled_notifications tid).isSome
      = ((dictLookup s.scheduled_notifications tid).isSome || eligibleFor now tid x) := by
  cases x with
  | legacy str => simp [rescheduleOne, eligibleFor]
  | record id? text? nt? =>
    cases nt? with
    | none =>
      cases id? <;> simp [rescheduleOne, eligibleFor]
    | some t =>
      cases id? with
      | none => simp [rescheduleOne, eligibleFor]
      | some tidx =>
        by_cases hcond : tidx ≠ "" ∧ now < t
        · simp only [rescheduleOne, if_pos hcond]
          by_cases htid : tid = tidx
          · subst htid
            rw [schedule_future_lookup_self now t s tid (text?.getD "") hcond.2]
            simp [eligibleFor, hcond.1, hcond.2]
          · rw [schedule_future_lookup_ne now t s tidx tid (text?.getD "") hcond.2 htid]
            have : (some tidx == some tid) = false := by
              simp only [beq_eq_false_iff_ne, ne_eq, Option.some.injEq]
              exact fun hx => htid hx.symm
            simp [eligibleFor, this]
        · simp only [rescheduleOne, if_neg hcond]
          rcases not_and_or.mp hcond with hid | hlt
          · have hid0 : tidx = "" := not_not.mp hid
            by_cases htid : tid = tidx
            · subst htid
              simp [eligibleFor, hid0]
            · have : (some tidx == some tid) = false := by
                simp only [beq_eq_false_iff_ne, ne_eq, Option.some.injEq]
                exact fun hx => htid hx.symm
              simp [eligibleFor, this]
          · simp [eligibleFor, hlt]

theorem reschedule_lookup (now : Int) (xs : List TaskItem) (s : SchedState) (tid : String) :
    (dictLookup (reschedule_loaded_notifications now s xs).scheduled_notifications
      tid).isSome
      = ((dictLookup s.scheduled_notifications tid).isSome
          || xs.any (eligibleFor now tid)) := by
  induction xs generalizing s with
  | nil => simp [reschedule_loaded_notifications, get_scheduled_tasks]
  | cons x xs ih =>
    rw [reschedule_cons, ih, rescheduleOne_lookup]
    simp [List.any_cons, Bool.or_assoc, Bool.or_comm (eligibleFor now tid x)]

/-- C6 (code bug): `get_all_scheduled` is supposed to report the
remaining time until each entry fires, but it computes
`timer.interval - timer.finished.wait(0)`; `Event.wait(0)` returns the
boolean flag (0 for a live timer), so the reported value is the
original arming delay, frozen at schedule time — observe that
`get_all_scheduled` does not even take the current time as an input.
At the failing input (entry armed at clock 0 for fire time 100, queried
when 60 time units have elapsed) the code reports 100 while the claimed
remaining time is `max 0 (100 - 60) = 40`. -/
theorem C6_remaining_time_is_stale :
    get_all_scheduled (schedule_notification 0 initState "a" 100 "buy milk").2
      = [⟨"a", "buy milk", 100⟩] ∧
    max 0 ((100 : Int) - 60) = 40 ∧
    (100 : Int) ≠ 40 :=
  ⟨rfl, by decide, by decide⟩

/-- C8 counterexample: a loaded task whose `notification_time` is
present and strictly in the future but whose id is the empty string (a
falsy value, storable through `save_task` and returned by
`load_all_tasks`) is *not* scheduled by reconciliation: the claim's
"exactly those tasks whose notification_time is present and future"
fails. -/
theorem C8_counterexample :
    get_scheduled_count
      (reschedule_loaded_notifications 0 initState
        [TaskItem.record (some "") (some "x") (some 100)]) = 0 ∧
    (0 : Nat) ≠ 1 :=
  ⟨rfl, by decide⟩

/-- C8 (amended): starting from a fresh scheduler, reconciliation arms
a timer for exactly those loaded tasks whose `notification_time` is
present and strictly greater than the load-time clock *and whose id is
truthy (present and non-empty)*; no task is fired immediately (the
event queue stays empty), in particular already-elapsed tasks are
neither scheduled nor fired. -/
theorem C8_reconciliation_exact (now : Int) (tasks : List TaskItem) (tid : String) :
    (reschedule_loaded_notifications now initState tasks).notification_queue = [] ∧
    ((dictLookup (reschedule_loaded_notifications now initState
        tasks).scheduled_notifications tid).isSome = true ↔
      ∃ text?, ∃ nt : Int, TaskItem.record (some tid) text? (some nt) ∈ tasks ∧
        tid ≠ "" ∧ now < nt) := by
  constructor
  · rw [reschedule_queue]
    rfl
  · rw [reschedule_lookup]
    rw [show (dictLookup initState.scheduled_notifications tid).isSome = false from rfl]
    rw [Bool.false_or, List.any_eq_true]
    constructor
    · rintro ⟨x, hx, he⟩
      cases x with
      | legacy str => simp [eligibleFor] at he
      | record id? text? nt? =>
        cases nt? with
        | none => simp [eligibleFor] at he
        | some t =>
          simp only [eligibleFor, Bool.and_eq_true, beq_iff_eq, bne_iff_ne, ne_eq,
            decide_eq_true_eq] at he
          obtain ⟨⟨hid, hne⟩, hlt⟩ := he
          exact ⟨text?, t, by rw [← hid]; exact hx, hne, hlt⟩
    · rintro ⟨text?, nt, hmem, hne, hlt⟩
      refine ⟨TaskItem.record (some tid) text? (some nt), hmem, ?_⟩
      simp [eligibleFor, hne, hlt]

/-- Witness for C8 (amended) at a concrete load: one future task with a
truthy id, one already-elapsed task, one future task with an empty id;
exactly the first is armed and nothing fires. -/
theorem C8_reconciliation_exact_witness :
    (reschedule_loaded_notifications 0 initState
      [TaskItem.record (some "a") (some "x") (some 100),
       TaskItem.record (some "b") (some "y") (some (-5)),
       TaskItem.record (some "") (some "z") (some 100)]).notification_queue = [] ∧
    ((dictLookup (reschedule_loaded_notifications 0 initState
        [TaskItem.record (some "a") (some "x") (some 100),
         TaskItem.record (some "b") (some "y") (some (-5)),
         TaskItem.record (some "") (some "z") (some 100)]).scheduled_notifications
        "a").isSome = true ↔
      ∃ text?, ∃ nt : Int,
        TaskItem.record (some "a") text? (some nt) ∈
          [TaskItem.record (some "a") (some "x") (some 100),
           TaskItem.record (some "b") (some "y") (some (-5)),
           TaskItem.record (some "") (some "z") (some 100)] ∧
        "a" ≠ "" ∧ (0 : Int) < nt) :=
  C8_reconciliation_exact 0
    [TaskItem.record (some "a") (some "x") (some 100),
     TaskItem.record (some "b") (some "y") (some (-5)),
     TaskItem.record (some "") (some "z") (some 100)] "a"

/-- C9: for every failure-mode environment, delivery never lets an
exception escape: `_show_notification` always returns, it always runs
the fallback path (the UI-callback chain) no matter whether the native
channel reported success, a registered non-failing handler always
receives the event, and when the handler is missing or failing and the
message box fails too, the delivery degrades to the console log. -/
theorem C9_delivery_never_raises (env : DeliveryEnv) :
    ∃ d : Delivered,
      show_notification env = Except.ok (strategy_show_notification env, d) ∧
      fallback_notification env = Except.ok d ∧
      (env.handlerRegistered = true → env.handlerRaises = false → d = Delivered.handler) ∧
      ((env.handlerRegistered = false ∨ env.handlerRaises = true) → env.tkRaises = true →
        d = Delivered.consoleLog) := by
  obtain ⟨n1, n2, hreg, hraise, tk⟩ := env
  cases n1 <;> cases n2 <;> cases hreg <;> cases hraise <;> cases tk <;>
    first
      | exact ⟨Delivered.handler, by decide⟩
      | exact ⟨Delivered.messageBox, by decide⟩
      | exact ⟨Delivered.consoleLog, by decide⟩

/-- Witness for C9 in the worst environment: native channel raises, the
registered handler raises, the message box raises; the event is still
delivered (to the console) and no exception escapes. -/
theorem C9_delivery_never_raises_witness :
    ∃ d : Delivered,
      show_notification (DeliveryEnv.mk true false true true true)
        = Except.ok (strategy_show_notification (DeliveryEnv.mk true false true true true), d) ∧
      fallback_notification (DeliveryEnv.mk true false true true true) = Except.ok d ∧
      ((DeliveryEnv.mk true false true true true).handlerRegistered = true →
        (DeliveryEnv.mk true false true true true).handlerRaises = false →
        d = Delivered.handler) ∧
      (((DeliveryEnv.mk true false true true true).handlerRegistered = false ∨
        (DeliveryEnv.mk true false true true true).handlerRaises = true) →
        (DeliveryEnv.mk true false true true true).tkRaises = true →
        d = Delivered.consoleLog) :=
  C9_delivery_never_raises (DeliveryEnv.mk true false true true true)

/-!
## Repository lemmas and claims
-/

theorem getConnection_no_fault (r : Repo) :
    r.getConnection false = Except.ok { r with connectionOpen := true } := by
  obtain ⟨c, tbl⟩ := r
  cases c <;> rfl

theorem save_task_no_fault (now : PyDateTime) (r : Repo) (task : TaskDict)
    (i s : String) (hi : task.id? = some i) (ht : task.text? = some s) :
    save_task false now r task
      = Except.ok (true,
          { connectionOpen := true,
            table := r.table.filter (fun q => q.id != i)
              ++ [⟨i, s, ntStored task.notification_time?,
                   isoformat (task.created_at?.getD now)⟩] }) := by
  rw [save_task, save_task_body, getConnection_no_fault, hi, ht]
  rfl

/-- C4 counterexample: a task dict with no `'id'` key makes `save_task`
raise `KeyError` to the caller (the handler only catches
`sqlite3.Error`), refuting "never raises" over all task dictionaries. -/
theorem C4_counterexample :
    save_task false ⟨2024, 1, 1, 0, 0, 0, 0⟩ (Repo.mk false [])
      (TaskDict.mk none none none none)
      = Except.error (PyExn.keyError "id") := rfl

/-- C4 (amended): for every task dictionary containing the keys `'id'`
and `'text'` (the documented input shape), `save_task` never raises to
the caller: it returns `True` on success and `False` on (sqlite)
failure, the failure being reported only through the boolean result. -/
theorem C4_save_never_raises (fault : Bool) (now : PyDateTime) (r : Repo) (task : TaskDict)
    (i s : String) (hi : task.id? = some i) (ht : task.text? = some s) :
    ∃ b : Bool, ∃ r2 : Repo,
      save_task fault now r task = Except.ok (b, r2) ∧ (b = true ↔ fault = false) := by
  cases fault
  · exact ⟨true, _, save_task_no_fault now r task i s hi ht, by simp⟩
  · refine ⟨false, r, ?_, by simp⟩
    obtain ⟨c, tbl⟩ := r
    cases c
    · rfl
    · rw [save_task, save_task_body]
      rw [show (Repo.mk true tbl).getConnection true = Except.ok (Repo.mk true tbl) from rfl]
      rw [hi, ht]
      rfl

/-- Witness for C4 (amended): saving a well-formed dict against a
failing database returns `False` without raising. -/
theorem C4_save_never_raises_witness :
    ((TaskDict.mk (some "a") (some "buy") none none).id? = some "a") ∧
    ((TaskDict.mk (some "a") (some "buy") none none).text? = some "buy") ∧
    (∃ b : Bool, ∃ r2 : Repo,
      save_task true ⟨2024, 1, 1, 0, 0, 0, 0⟩ (Repo.mk false [])
          (TaskDict.mk (some "a") (some "buy") none none)
        = Except.ok (b, r2) ∧ (b = true ↔ true = false)) :=
  ⟨rfl, rfl,
   C4_save_never_raises true ⟨2024, 1, 1, 0, 0, 0, 0⟩ (Repo.mk false [])
     (TaskDict.mk (some "a") (some "buy") none none) "a" "buy" rfl rfl⟩

/-- C5: round-trip persistence — for every task dict with a string id,
non-empty text and an optional (valid) `datetime` notification time,
`save_task` succeeds and a subsequent `load_all_tasks` yields a task
equal to the saved one in `id`, `text` and `notification_time` (the
microsecond-precision ISO serialization is lossless, so the timestamp
equality is exact). -/
theorem C5_round_trip (r : Repo) (task : TaskDict) (now now2 : PyDateTime)
    (i s : String) (hi : task.id? = some i) (ht : task.text? = some s) (_hs : s ≠ "")
    (hnt : task.notification_time? = none ∨
      ∃ d : PyDateTime, task.notification_time? = some (NTVal.dt d) ∧ d.validb = true) :
    ∃ r2 : Repo, save_task false now r task = Except.ok (true, r2) ∧
      ∃ t ∈ (load_all_tasks false now2 r2).1,
        t.id = i ∧ t.text = s ∧
        t.notification_time
          = (match task.notification_time? with
             | some (NTVal.dt d) => some d
             | _ => none) := by
  refine ⟨_, save_task_no_fault now r task i s hi ht, ?_⟩
  refine ⟨loadRow now2 ⟨i, s, ntStored task.notification_time?,
    isoformat (task.created_at?.getD now)⟩, ?_, rfl, rfl, ?_⟩
  · exact List.mem_map_of_mem _ (List.mem_append_right _ (List.mem_singleton_self _))
  · rcases hnt with h0 | ⟨d, hd, hvalid⟩
    · rw [h0]
      rfl
    · rw [hd]
      show (loadRow now2 ⟨i, s, some (isoformat d),
        isoformat (task.created_at?.getD now)⟩).notification_time = some d
      simp only [loadRow]
      rw [if_neg (isoformat_ne_empty d)]
      rw [fromisoformat_isoformat d hvalid]

/-- Witness for C5 at a concrete task (`id "a"`, text `"buy milk"`,
notification time 2030-01-02 03:04:05) saved into an empty store. -/
theorem C5_round_trip_witness :
    ((TaskDict.mk (some "a") (some "buy milk")
        (some (NTVal.dt ⟨2030, 1, 2, 3, 4, 5, 0⟩)) none).id? = some "a") ∧
    ((TaskDict.mk (some "a") (some "buy milk")
        (some (NTVal.dt ⟨2030, 1, 2, 3, 4, 5, 0⟩)) none).text? = some "buy milk") ∧
    ("buy milk" ≠ "") ∧
    (∃ r2 : Repo,
      save_task false ⟨2024, 1, 1, 0, 0, 0, 0⟩ (Repo.mk false [])
          (TaskDict.mk (some "a") (some "buy milk")
            (some (NTVal.dt ⟨2030, 1, 2, 3, 4, 5, 0⟩)) none)
        = Except.ok (true, r2) ∧
      ∃ t ∈ (load_all_tasks false ⟨2024, 1, 1, 0, 0, 0, 0⟩ r2).1,
        t.id = "a" ∧ t.text = "buy milk" ∧
        t.notification_time
          = (match (TaskDict.mk (some "a") (some "buy milk")
                (some (NTVal.dt ⟨2030, 1, 2, 3, 4, 5, 0⟩)) none).notification_time? with
             | some (NTVal.dt d) => some d
             | _ => none)) :=
  ⟨rfl, rfl, by decide,
   C5_round_trip (Repo.mk false [])
     (TaskDict.mk (some "a") (some "buy milk")
       (some (NTVal.dt ⟨2030, 1, 2, 3, 4, 5, 0⟩)) none)
     ⟨2024, 1, 1, 0, 0, 0, 0⟩ ⟨2024, 1, 1, 0, 0, 0, 0⟩ "a" "buy milk" rfl rfl
     (by decide)
     (Or.inr ⟨⟨2030, 1, 2, 3, 4, 5, 0⟩, rfl, by decide⟩)⟩

theorem load_all_tasks_no_fault (now : PyDateTime) (r : Repo) :
    (load_all_tasks false now r).1 = r.table.map (loadRow now) := by
  obtain ⟨c, tbl⟩ := r
  cases c <;> rfl

/-- C7: for every stored row, `load_all_tasks` produces one task (rows
are never omitted and a malformed field never aborts the load), whose
`notification_time` is the parsed instant when the stored text parses
as ISO-8601 and `None` otherwise (including a NULL cell), and whose
`created_at` is the parsed stored value, defaulting to "now" when the
stored value is unparseable. -/
theorem C7_load_degrades_gracefully (r : Repo) (now : PyDateTime) :
    (load_all_tasks false now r).1.length = r.table.length ∧
    List.Forall₂ (fun (row : Row) (t : TaskOut) =>
      t.id = row.id ∧ t.text = row.text ∧
      (∀ s : String, ∀ d : PyDateTime, row.notification_time = some s →
        fromisoformat s = some d → t.notification_time = some d) ∧
      (∀ s : String, row.notification_time = some s → fromisoformat s = none →
        t.notification_time = none) ∧
      (row.notification_time = none → t.notification_time = none) ∧
      (∀ d : PyDateTime, fromisoformat row.created_at = some d → t.created_at = d) ∧
      (fromisoformat row.created_at = none → t.created_at = now))
      r.table (load_all_tasks false now r).1 := by
  constructor
  · rw [load_all_tasks_no_fault, List.length_map]
  · rw [load_all_tasks_no_fault]
    rw [List.forall₂_map_right_iff]
    rw [List.forall₂_same]
    intro row hrow
    refine ⟨rfl, rfl, ?_, ?_, ?_, ?_, ?_⟩
    · intro s d hs hparse
      by_cases hse : s = ""
      · rw [hse] at hparse
        rw [show fromisoformat "" = none from rfl] at hparse
        exact absurd hparse (by simp)
      · simp only [loadRow, hs]
        rw [if_neg hse, hparse]
    · intro s hs hparse
      by_cases hse : s = ""
      · simp only [loadRow, hs]
        rw [if_pos hse]
      · simp only [loadRow, hs]
        rw [if_neg hse, hparse]
    · intro hs
      simp only [loadRow, hs]
    · intro d hparse
      by_cases hce : row.created_at = ""
      · rw [hce] at hparse
        rw [show fromisoformat "" = none from rfl] at hparse
        exact absurd hparse (by simp)
      · simp only [loadRow]
        rw [if_neg hce, hparse]
    · intro hparse
      by_cases hce : row.created_at = ""
      · simp only [loadRow]
        rw [if_pos hce]
      · simp only [loadRow]
        rw [if_neg hce, hparse]

/-- Witness for C7 at a concrete table containing a row with a
malformed `notification_time` and `created_at`, and a healthy row. -/
theorem C7_load_degrades_gracefully_witness :
    (load_all_tasks false ⟨2024, 1, 1, 0, 0, 0, 0⟩
      (Repo.mk true [⟨"a", "x", some "garbage", "bad"⟩,
                     ⟨"b", "y", none, "2030-01-02T03:04:05"⟩])).1.length
      = (Repo.mk true [⟨"a", "x", some "garbage", "bad"⟩,
                       ⟨"b", "y", none, "2030-01-02T03:04:05"⟩]).table.length ∧
    List.Forall₂ (fun (row : Row) (t : TaskOut) =>
      t.id = row.id ∧ t.text = row.text ∧
      (∀ s : String, ∀ d : PyDateTime, row.notification_time = some s →
        fromisoformat s = some d → t.notification_time = some d) ∧
      (∀ s : String, row.notification_time = some s → fromisoformat s = none →
        t.notification_time = none) ∧
      (row.notification_time = none → t.notification_time = none) ∧
      (∀ d : PyDateTime, fromisoformat row.created_at = some d → t.created_at = d) ∧
      (fromisoformat row.created_at = none → t.created_at = ⟨2024, 1, 1, 0, 0, 0, 0⟩))
      (Repo.mk true [⟨"a", "x", some "garbage", "bad"⟩,
                     ⟨"b", "y", none, "2030-01-02T03:04:05"⟩]).table
      (load_all_tasks false ⟨2024, 1, 1, 0, 0, 0, 0⟩
        (Repo.mk true [⟨"a", "x", some "garbage", "bad"⟩,
                       ⟨"b", "y", none, "2030-01-02T03:04:05"⟩])).1 :=
  C7_load_degrades_gracefully
    (Repo.mk true [⟨"a", "x", some "garbage", "bad"⟩,
                   ⟨"b", "y", none, "2030-01-02T03:04:05"⟩])
    ⟨2024, 1, 1, 0, 0, 0, 0⟩

/-- C10: `close()` does not permanently disable the repository — it
drops the connection handle, a second `close()` is a no-op, and every
subsequent operation (`save_task`, `load_all_tasks`, `delete_task`)
transparently reopens a connection to the same database file and
behaves exactly as if `close` had not been called. -/
theorem C10_close_is_transparent (r : Repo) (now now2 : PyDateTime) (task : TaskDict)
    (tid : String) :
    Repo.close (Repo.close r) = Repo.close r ∧
    (Repo.close r).connectionOpen = false ∧
    save_task false now (Repo.close r) task = save_task false now r task ∧
    load_all_tasks false now2 (Repo.close r) = load_all_tasks false now2 r ∧
    delete_task false (Repo.close r) tid = delete_task false r tid := by
  obtain ⟨c, tbl⟩ := r
  refine ⟨rfl, rfl, ?_, ?_, ?_⟩
  · cases c
    · rfl
    · match hid : task.id? with
      | none =>
        simp [save_task, save_task_body, Repo.close, Repo.getConnection, hid]
      | some i =>
        match htext : task.text? with
        | none =>
          simp [save_task, save_task_body, Repo.close, Repo.getConnection, hid, htext]
        | some s =>
          simp [save_task, save_task_body, Repo.close, Repo.getConnection, hid, htext]
  · cases c <;> simp [load_all_tasks, Repo.close, Repo.getConnection]
  · cases c <;> simp [delete_task, Repo.close, Repo.getConnection]
